import Mathlib

/-!
Verification of twisted/python/threadpool.py, a ThreadPool re-implemented on top of a
coordinator-based Team of workers.  Pure code of the module is embedded directly as Lean
functions; the stateful pool object is embedded as explicit state passing over a record,
where a method that can raise returns the state of the object after the call together
with the exception it raised, if any (in Python, mutations made before a raise persist
on the object).  The modules twisted.threads (Team, ThreadWorker) and
twisted.python.context are not part of this repository; where their behaviour is needed
it is modelled from the spec, and each such definition says so in its doc comment.
Python 3 attribute semantics are assumed throughout.
-/

namespace Threadpool

/-- Ambient context snapshot of the submitting thread: the top entry of the context
stack, read at threadpool.py line 261 as
context.theContextTracker.currentContext().contexts[-1], a dict of context values. -/
abbrev Ctx := List (String × String)

/-- Outcome of calling the submitted callable under an installed ambient context: the
callable either returns a value or raises an exception, carried as its message. -/
inductive TaskOutcome (α : Type) where
  | ret : α → TaskOutcome α
  | raise : String → TaskOutcome α

/-- Failure descriptor: twisted.python.failure.Failure() built inside the except block
of inThread.  Modelled from the spec (section 7, TaskFailure): the Failure class is not
part of this repository; the descriptor captures the raised exception. -/
structure Failure where
  captured : String
deriving DecidableEq

/-- Value bound to the result variable of inThread and passed as the second argument of
onResult: either the return value of the callable or the Failure built from its
exception. -/
inductive TaskResult (α : Type) where
  | value : α → TaskResult α
  | failure : Failure → TaskResult α

/-- Modelled from the spec (section 6, ambient-context facility): context.call(ctx,
func, *args, **kw) from twisted.python.context, not part of this repository, executes
func with ctx installed as the ambient context.  The callable is modelled as a function
of the installed ambient context, so the call evaluates func at ctx and propagates a
raise as an error. -/
def contextCall (ctx : Ctx) (func : Ctx → TaskOutcome α) : Except String α :=
  match func ctx with
  | TaskOutcome.ret v => Except.ok v
  | TaskOutcome.raise e => Except.error e

/-- Embedding of the inThread closure (threadpool.py lines 263-271), run on a worker
thread.  hasOnResult models whether onResult is not None.  The returned list records
the invocations of onResult in order, and the Except layer records an exception
escaping the closure into the worker; the bare except swallows every exception of the
task, so the error constructor is never produced.  onResult itself is modelled as a
non-raising recorder (a raising onResult is the documented CallbackFailure hazard,
outside this embedding). -/
def inThread (ctx : Ctx) (func : Ctx → TaskOutcome α) (hasOnResult : Bool) :
    Except Failure (List (Bool × TaskResult α)) :=
  let okResult : Bool × TaskResult α :=
    match contextCall ctx func with
    | Except.error e => (false, TaskResult.failure (Failure.mk e))
    | Except.ok v => (true, TaskResult.value v)
  Except.ok (if hasOnResult then [okResult] else [])

/-- Statistics snapshot of the Team, as returned by Team.statistics() and read through
the workers, working and q views of the pool (threadpool.py lines 114-117 and
150-164). -/
structure Statistics where
  idleWorkerCount : Nat
  busyWorkerCount : Nat
  backloggedWorkCount : Nat
deriving DecidableEq

/-- Live worker total of a statistics snapshot: idleWorkerCount + busyWorkerCount, the
quantity returned by the workers property (threadpool.py lines 150-156). -/
def Statistics.live (s : Statistics) : Nat :=
  s.idleWorkerCount + s.busyWorkerCount

/-- Embedding of limitedWorkerCreator (threadpool.py lines 133-138): true models
returning a fresh worker, false models returning None because
busyWorkerCount + idleWorkerCount has reached max. -/
def limitedWorkerCreator (s : Statistics) (mx : Int) : Bool :=
  decide ((s.busyWorkerCount + s.idleWorkerCount : Int) < mx)

/-- Modelled from the spec (section 4.2, dispatch algorithm): coordinator dispatch for
Team.do; twisted.threads.Team is not part of this repository.  An idle worker takes the
item and becomes busy; otherwise a worker is spawned through the createWorker hook,
which is limitedWorkerCreator from the source, and takes the item; otherwise the item
joins the backlog. -/
def teamDo (s : Statistics) (mx : Int) : Statistics :=
  if 0 < s.idleWorkerCount then
    Statistics.mk (s.idleWorkerCount - 1) (s.busyWorkerCount + 1) s.backloggedWorkCount
  else if limitedWorkerCreator s mx then
    Statistics.mk s.idleWorkerCount (s.busyWorkerCount + 1) s.backloggedWorkCount
  else
    Statistics.mk s.idleWorkerCount s.busyWorkerCount (s.backloggedWorkCount + 1)

/-- Modelled from the spec (sections 4.1 and 4.2): Team.grow(n) asks the coordinator to
spawn n workers, each through the createWorker hook, which refuses once the live count
has reached max; a spawned worker starts idle, and once the hook refuses no further
worker is created. -/
def teamGrow (s : Statistics) (mx : Int) : Nat → Statistics
  | 0 => s
  | n + 1 =>
    if limitedWorkerCreator s mx then
      teamGrow
        (Statistics.mk (s.idleWorkerCount + 1) s.busyWorkerCount s.backloggedWorkCount)
        mx n
    else s

/-- Modelled from the spec (section 4.1): Team.shrink(n) stops n workers,
idle-preferred; a busy worker receives its stop sentinel once its current task
completes.  The returned snapshot is the atomic completion of the shrink. -/
def teamShrink (s : Statistics) (n : Nat) : Statistics :=
  let i := Nat.min n s.idleWorkerCount
  let b := Nat.min (n - i) s.busyWorkerCount
  Statistics.mk (s.idleWorkerCount - i) (s.busyWorkerCount - b) s.backloggedWorkCount

/-- Modelled from the spec (section 4.2, WorkerIdle): a busy worker finishing its task
immediately takes the oldest backlog item, staying busy, or becomes idle when the
backlog is empty. -/
def workerDone (s : Statistics) : Statistics :=
  if 0 < s.backloggedWorkCount then
    Statistics.mk s.idleWorkerCount s.busyWorkerCount (s.backloggedWorkCount - 1)
  else
    Statistics.mk (s.idleWorkerCount + 1) (s.busyWorkerCount - 1) s.backloggedWorkCount

/-- Modelled from the spec (sections 4.1 and 4.2): Team.quit drains the team, delivers
a stop sentinel to every worker and joins them, so after completion no worker is live;
the spec declares the surrounding stop idempotent, so quitting an already-quit team is
a no-op. -/
def teamQuit (_s : Statistics) : Statistics :=
  Statistics.mk 0 0 0

/-- State of a ThreadPool object (threadpool.py lines 95-123): configuration, lifecycle
flags, and the statistics of its Team; the bookkeeping lists of threads are summarised
by the statistics. -/
structure ThreadPool where
  min : Int
  max : Int
  name : Option String
  started : Bool
  joined : Bool
  team : Statistics
deriving DecidableEq

/-- The workers property (threadpool.py lines 150-156): total number of live workers,
idle plus busy. -/
def ThreadPool.workers (p : ThreadPool) : Nat :=
  p.team.live

/-- Embedding of ThreadPool.__init__ (threadpool.py lines 105-147).  The asserts run
first (lines 112-113) and reject a negative minimum or a minimum above the maximum.
Otherwise the method assigns q, min, max, name, waiters and threads, and then line 123
executes self.working = []; working is redefined at lines 159-164 as a property with no
setter, so under Python 3 the assignment raises AttributeError before self._team
(line 140) is ever created.  Construction therefore never returns a pool object, the
same half-finished-refactor slip as in startAWorker; the ThreadPool record models the
object states that the methods of the class are written against. -/
def ThreadPool.init (minthreads maxthreads : Int) (name : Option String) :
    Except String ThreadPool :=
  if minthreads < 0 then Except.error "AssertionError: minimum is negative"
  else if maxthreads < minthreads then
    Except.error "AssertionError: minimum is greater than maximum"
  else
    Except.error "AttributeError: property working of ThreadPool has no setter"

/-- Embedding of startAWorker (threadpool.py lines 177-182).  Its first statement
increments self.workers, but workers is redefined at line 150 as a property with no
setter, so under Python 3 the augmented assignment raises AttributeError before any
thread is created; the method would equally fail at line 179, which reads
self._worker, an attribute the class never defines.  The object state is returned
unchanged together with the exception. -/
def ThreadPool.startAWorker (p : ThreadPool) : ThreadPool × Option String :=
  (p, some "AttributeError: property workers of ThreadPool has no setter")

/-- Embedding of _startSomeWorkers (threadpool.py lines 209-213): neededSize is the
backlog plus the busy count, read through the q.qsize and working views; the while loop
calls startAWorker as long as workers < min(max, neededSize).  Because startAWorker
raises on its first statement, the loop aborts the method on its first iteration, so
the loop is embedded as a single conditional. -/
def ThreadPool._startSomeWorkers (p : ThreadPool) : ThreadPool × Option String :=
  let neededSize : Int := p.team.backloggedWorkCount + p.team.busyWorkerCount
  if (p.workers : Int) < Min.min p.max neededSize then ThreadPool.startAWorker p
  else (p, none)

/-- Embedding of adjustPoolsize (threadpool.py lines 283-304): default the arguments to
the current configuration, run the asserts, assign the configuration, and, only when
started, shrink above the maximum, grow below the minimum, then run _startSomeWorkers.
The asserts run before the configuration is assigned, so a failed assert leaves the
object untouched.  Team.shrink and Team.grow are modelled from the spec (teamShrink,
teamGrow). -/
def ThreadPool.adjustPoolsize (p : ThreadPool) (minthreads maxthreads : Option Int) :
    ThreadPool × Option String :=
  let mn := minthreads.getD p.min
  let mx := maxthreads.getD p.max
  if mn < 0 then (p, some "AssertionError: minimum is negative")
  else if mx < mn then (p, some "AssertionError: minimum is greater than maximum")
  else
    let p1 : ThreadPool := { p with min := mn, max := mx }
    if p1.started = false then (p1, none)
    else
      let p2 : ThreadPool :=
        if (p1.workers : Int) > p1.max then
          { p1 with team := teamShrink p1.team ((p1.workers : Int) - p1.max).toNat }
        else p1
      let p3 : ThreadPool :=
        if (p2.workers : Int) < p2.min then
          { p2 with team := teamGrow p2.team p2.max (p2.min - (p2.workers : Int)).toNat }
        else p2
      ThreadPool._startSomeWorkers p3

/-- Embedding of start (threadpool.py lines 167-174): clear joined, set started, then
adjustPoolsize() with default arguments. -/
def ThreadPool.start (p : ThreadPool) : ThreadPool × Option String :=
  ThreadPool.adjustPoolsize { p with joined := false, started := true } none none

/-- Embedding of stop (threadpool.py lines 274-280): set joined, clear started, quit
the team; Team.quit is modelled from the spec (teamQuit), so no exception is raised. -/
def ThreadPool.stop (p : ThreadPool) : ThreadPool :=
  { p with joined := true, started := false, team := teamQuit p.team }

/-- Work item built by callInThreadWithCallback (threadpool.py lines 261-271): the
ambient context snapshot captured on the submitting thread, the callable, and whether
onResult was supplied.  Executing it runs the inThread closure on a worker. -/
structure WorkItem (α : Type) where
  ctx : Ctx
  func : Ctx → TaskOutcome α
  hasOnResult : Bool

/-- Embedding of callInThreadWithCallback (threadpool.py lines 229-271): when joined,
the call returns at once having done nothing, so no work item exists and the team is
untouched; otherwise the ambient context of the calling thread is captured and the
inThread closure is handed to the team through Team.do, whose dispatch is modelled from
the spec (teamDo).  The produced work item, when any, is returned beside the new pool
state. -/
def ThreadPool.callInThreadWithCallback (p : ThreadPool) (ctx : Ctx)
    (func : Ctx → TaskOutcome α) (hasOnResult : Bool) :
    ThreadPool × Option (WorkItem α) :=
  if p.joined then (p, none)
  else
    ({ p with team := teamDo p.team p.max }, some (WorkItem.mk ctx func hasOnResult))

/-- Embedding of callInThread (threadpool.py lines 216-226): delegate to
callInThreadWithCallback with onResult None. -/
def ThreadPool.callInThread (p : ThreadPool) (ctx : Ctx) (func : Ctx → TaskOutcome α) :
    ThreadPool × Option (WorkItem α) :=
  ThreadPool.callInThreadWithCallback p ctx func false

/-- Execution of a dispatched work item on a worker thread: the worker runs the
inThread closure with the snapshot that the item carries. -/
def executeWorkItem (w : WorkItem α) : Except Failure (List (Bool × TaskResult α)) :=
  inThread w.ctx w.func w.hasOnResult

/-- Embedding of __getstate__ (threadpool.py lines 202-206): a dict holding exactly the
keys min and max. -/
def ThreadPool.__getstate__ (p : ThreadPool) : List (String × Int) :=
  [("min", p.min), ("max", p.max)]

/-- Embedding of __setstate__ (threadpool.py lines 197-199): self.__dict__ = state
erases every instance attribute and installs the entries of state, then
ThreadPool.__init__ runs with self.min and self.max, falling back to the class defaults
5 and 20 (lines 95-96) when a key is absent; name takes the default None.  Under
Python 3 that __init__ call raises AttributeError at line 123 before the fresh team
(line 140) is created, so unpickling never yields a reinitialized pool; the raise is
propagated through ThreadPool.init. -/
def ThreadPool.__setstate__ (state : List (String × Int)) : Except String ThreadPool :=
  let mn := (state.lookup "min").getD 5
  let mx := (state.lookup "max").getD 20
  ThreadPool.init mn mx none

/-- One observable operation on the pool, at the atomic-completion granularity of the
embedding: a submission from any thread, a busy worker finishing its task, a resize, a
start, or a stop.  For an operation that raised, the resulting state is the object
state at the raise, since Python keeps mutations made before the raise. -/
inductive PoolStep : ThreadPool → ThreadPool → Prop where
  | submit (p : ThreadPool) (ctx : Ctx) (func : Ctx → TaskOutcome Unit) (b : Bool) :
      PoolStep p (ThreadPool.callInThreadWithCallback p ctx func b).1
  | finish (p : ThreadPool) (h : 0 < p.team.busyWorkerCount) :
      PoolStep p { p with team := workerDone p.team }
  | resize (p : ThreadPool) (mn mx : Option Int) :
      PoolStep p (ThreadPool.adjustPoolsize p mn mx).1
  | restart (p : ThreadPool) :
      PoolStep p (ThreadPool.start p).1
  | halt (p : ThreadPool) :
      PoolStep p (ThreadPool.stop p)

/-- Reachability of a pool state through any finite sequence of operations. -/
def PoolReachable (p0 p : ThreadPool) : Prop :=
  Relation.ReflTransGen PoolStep p0 p

/-- Inductive invariant of the pool state machine: the configuration is valid, a
started pool is not joined, a started pool has at most max live workers, and a joined
pool has none. -/
def PoolInv (p : ThreadPool) : Prop :=
  (0 ≤ p.min ∧ p.min ≤ p.max) ∧
  (p.started = true → p.joined = false) ∧
  (p.started = true → (p.workers : Int) ≤ p.max) ∧
  (p.joined = true → p.workers = 0)

end Threadpool

namespace Threadpool

theorem startSomeWorkers_fst (p : ThreadPool) :
    (ThreadPool._startSomeWorkers p).1 = p := by
  simp only [ThreadPool._startSomeWorkers, ThreadPool.startAWorker]
  split <;> rfl

theorem teamDo_live_le (s : Statistics) (mx : Int) (h : (s.live : Int) ≤ mx) :
    ((teamDo s mx).live : Int) ≤ mx := by
  unfold teamDo
  split
  · simp only [Statistics.live] at *
    push_cast at *
    omega
  · split
    · rename_i hc
      simp only [limitedWorkerCreator, decide_eq_true_eq] at hc
      simp only [Statistics.live] at *
      push_cast at *
      omega
    · simp only [Statistics.live] at *
      push_cast at *
      omega

theorem teamGrow_live_le (mx : Int) (n : Nat) (s : Statistics) (h : (s.live : Int) ≤ mx) :
    ((teamGrow s mx n).live : Int) ≤ mx := by
  induction n generalizing s with
  | zero => exact h
  | succ n ih =>
    unfold teamGrow
    split
    · rename_i hc
      simp only [limitedWorkerCreator, decide_eq_true_eq] at hc
      apply ih
      simp only [Statistics.live] at *
      push_cast at *
      omega
    · exact h

theorem teamGrow_live_exact (mx : Int) (n : Nat) (s : Statistics)
    (h : ((s.live + n : Nat) : Int) ≤ mx) :
    (teamGrow s mx n).live = s.live + n := by
  induction n generalizing s with
  | zero => rfl
  | succ n ih =>
    unfold teamGrow
    have hc : limitedWorkerCreator s mx = true := by
      simp only [limitedWorkerCreator, decide_eq_true_eq]
      simp only [Statistics.live] at h
      push_cast at h
      omega
    rw [if_pos hc]
    have hrec := ih
      (Statistics.mk (s.idleWorkerCount + 1) s.busyWorkerCount s.backloggedWorkCount)
      (by simp only [Statistics.live] at h ⊢; push_cast at h ⊢; omega)
    simp only [Statistics.live] at hrec ⊢
    omega

theorem teamGrow_busy (mx : Int) (n : Nat) (s : Statistics) :
    (teamGrow s mx n).busyWorkerCount = s.busyWorkerCount := by
  induction n generalizing s with
  | zero => rfl
  | succ n ih =>
    unfold teamGrow
    split
    · exact ih _
    · rfl

theorem teamGrow_backlog (mx : Int) (n : Nat) (s : Statistics) :
    (teamGrow s mx n).backloggedWorkCount = s.backloggedWorkCount := by
  induction n generalizing s with
  | zero => rfl
  | succ n ih =>
    unfold teamGrow
    split
    · exact ih _
    · rfl

theorem teamShrink_live (s : Statistics) (n : Nat) (h : n ≤ s.live) :
    (teamShrink s n).live = s.live - n := by
  simp only [teamShrink, Statistics.live, Nat.min_def] at *
  split_ifs <;> omega

theorem workerDone_live (s : Statistics) (h : 0 < s.busyWorkerCount) :
    (workerDone s).live = s.live := by
  unfold workerDone
  split
  · simp only [Statistics.live]
  · simp only [Statistics.live]
    omega

theorem adjustPoolsize_assert_fail (p : ThreadPool) (mno mxo : Option Int)
    (h : mno.getD p.min < 0 ∨ mxo.getD p.max < mno.getD p.min) :
    (ThreadPool.adjustPoolsize p mno mxo).1 = p ∧
    ((ThreadPool.adjustPoolsize p mno mxo).2).isSome = true := by
  unfold ThreadPool.adjustPoolsize
  by_cases h1 : mno.getD p.min < 0
  · rw [if_pos h1]
    exact ⟨rfl, rfl⟩
  · have h2 : mxo.getD p.max < mno.getD p.min := h.resolve_left h1
    rw [if_neg h1, if_pos h2]
    exact ⟨rfl, rfl⟩

end Threadpool

namespace Threadpool

theorem adjustPoolsize_inv_of_valid (p : ThreadPool) (mno mxo : Option Int)
    (h1 : 0 ≤ mno.getD p.min) (h2 : mno.getD p.min ≤ mxo.getD p.max)
    (hsj : p.started = true → p.joined = false)
    (hjw : p.joined = true → p.workers = 0) :
    PoolInv (ThreadPool.adjustPoolsize p mno mxo).1 := by
  obtain ⟨pmin, pmax, pname, pstart, pjoin, pteam⟩ := p
  unfold ThreadPool.adjustPoolsize
  dsimp only [ThreadPool.workers] at h1 h2 hjw ⊢
  rw [if_neg (by omega), if_neg (by omega)]
  cases pstart with
  | false =>
    rw [if_pos rfl]
    refine ⟨⟨h1, h2⟩, ?_, ?_, ?_⟩
    · intro hx; exact Bool.noConfusion hx
    · intro hx; exact Bool.noConfusion hx
    · intro hjx; exact hjw hjx
  | true =>
    have hj0 : pjoin = false := hsj rfl
    subst hj0
    rw [if_neg (by decide)]
    rw [startSomeWorkers_fst]
    split
    · rename_i hshrink
      split
      · rename_i hgrow
        refine ⟨⟨h1, h2⟩, fun _ => rfl, ?_, fun hx => Bool.noConfusion hx⟩
        intro _
        simp only [ThreadPool.workers]
        apply teamGrow_live_le
        rw [teamShrink_live _ _ (by omega)]
        omega
      · rename_i hgrow
        refine ⟨⟨h1, h2⟩, fun _ => rfl, ?_, fun hx => Bool.noConfusion hx⟩
        intro _
        simp only [ThreadPool.workers]
        rw [teamShrink_live _ _ (by omega)]
        omega
    · rename_i hshrink
      split
      · rename_i hgrow
        refine ⟨⟨h1, h2⟩, fun _ => rfl, ?_, fun hx => Bool.noConfusion hx⟩
        intro _
        simp only [ThreadPool.workers]
        apply teamGrow_live_le
        omega
      · rename_i hgrow
        refine ⟨⟨h1, h2⟩, fun _ => rfl, ?_, fun hx => Bool.noConfusion hx⟩
        intro _
        simp only [ThreadPool.workers]
        omega

end Threadpool

namespace Threadpool

theorem poolStep_inv {p q : ThreadPool} (hp : PoolInv p) (hs : PoolStep p q) : PoolInv q := by
  obtain ⟨⟨hc1, hc2⟩, hsj, hsw, hjw⟩ := hp
  cases hs with
  | submit ctx func b =>
    unfold ThreadPool.callInThreadWithCallback
    by_cases hj : p.joined = true
    · rw [if_pos hj]
      exact ⟨⟨hc1, hc2⟩, hsj, hsw, hjw⟩
    · rw [if_neg hj]
      refine ⟨⟨hc1, hc2⟩, ?_, ?_, ?_⟩
      · intro hst
        exact hsj hst
      · intro hst
        exact teamDo_live_le p.team p.max (hsw hst)
      · intro hjx
        exact absurd hjx hj
  | finish hb =>
    refine ⟨⟨hc1, hc2⟩, hsj, ?_, ?_⟩
    · intro hst
      have h3 := hsw hst
      show ((workerDone p.team).live : Int) ≤ p.max
      rw [workerDone_live p.team hb]
      exact h3
    · intro hjx
      have h5 := hjw hjx
      show (workerDone p.team).live = 0
      rw [workerDone_live p.team hb]
      exact h5
  | resize mn mx =>
    by_cases hok : 0 ≤ mn.getD p.min ∧ mn.getD p.min ≤ mx.getD p.max
    · exact adjustPoolsize_inv_of_valid p mn mx hok.1 hok.2 hsj hjw
    · have hd : mn.getD p.min < 0 ∨ mx.getD p.max < mn.getD p.min := by
        rcases not_and_or.mp hok with h | h
        · left; omega
        · right; omega
      have hfail := adjustPoolsize_assert_fail p mn mx hd
      rw [hfail.1]
      exact ⟨⟨hc1, hc2⟩, hsj, hsw, hjw⟩
  | restart =>
    unfold ThreadPool.start
    apply adjustPoolsize_inv_of_valid
    · exact hc1
    · exact hc2
    · intro _
      rfl
    · intro hx
      exact Bool.noConfusion hx
  | halt =>
    refine ⟨⟨hc1, hc2⟩, ?_, ?_, ?_⟩
    · intro hx
      exact Bool.noConfusion hx
    · intro hx
      exact Bool.noConfusion hx
    · intro _
      rfl

theorem poolReachable_inv {p0 p : ThreadPool} (h0 : PoolInv p0) (hr : PoolReachable p0 p) :
    PoolInv p := by
  have hr2 : Relation.ReflTransGen PoolStep p0 p := hr
  clear hr
  induction hr2 with
  | refl => exact h0
  | tail _ hstep ih => exact poolStep_inv ih hstep

end Threadpool

namespace Threadpool

theorem live_mk (a b c : Nat) : (Statistics.mk a b c).live = a + b := rfl

theorem busy_mk (a b c : Nat) : (Statistics.mk a b c).busyWorkerCount = b := rfl

theorem backlog_mk (a b c : Nat) : (Statistics.mk a b c).backloggedWorkCount = c := rfl

theorem tp_team_mk (a b : Int) (c : Option String) (d e : Bool) (f : Statistics) :
    (ThreadPool.mk a b c d e f).team = f := rfl

theorem tp_min_mk (a b : Int) (c : Option String) (d e : Bool) (f : Statistics) :
    (ThreadPool.mk a b c d e f).min = a := rfl

theorem tp_max_mk (a b : Int) (c : Option String) (d e : Bool) (f : Statistics) :
    (ThreadPool.mk a b c d e f).max = b := rfl

/-- C1: for a task executed by a worker with onResult supplied, a task that returns v
has onResult invoked exactly once with (True, v); a task that raises e has onResult
invoked exactly once with (False, failure descriptor capturing e); and in every case
the inThread closure completes without any exception escaping (the Except.ok result),
so the error of the task is never propagated to the submitting thread. -/
theorem inThread_onResult_exactly_once (ctx : Ctx) (func : Ctx → TaskOutcome α) :
    (∀ v : α, func ctx = TaskOutcome.ret v →
      inThread ctx func true = Except.ok [(true, TaskResult.value v)]) ∧
    (∀ e : String, func ctx = TaskOutcome.raise e →
      inThread ctx func true = Except.ok [(false, TaskResult.failure (Failure.mk e))]) ∧
    (∃ l : List (Bool × TaskResult α), inThread ctx func true = Except.ok l ∧
      l.length = 1) := by
  refine ⟨?_, ?_, ?_⟩
  · intro v hv
    simp [inThread, contextCall, hv]
  · intro e he
    simp [inThread, contextCall, he]
  · cases hfc : func ctx with
    | ret v =>
      exact ⟨[(true, TaskResult.value v)], by simp [inThread, contextCall, hfc], rfl⟩
    | raise e =>
      exact ⟨[(false, TaskResult.failure (Failure.mk e))],
        by simp [inThread, contextCall, hfc], rfl⟩

/-- Witness for C1 at two concrete tasks: one returning 7 and one raising. -/
theorem inThread_onResult_exactly_once_witness :
    inThread ([] : Ctx) (fun _ => TaskOutcome.ret (7 : Int)) true =
      Except.ok [(true, TaskResult.value 7)] ∧
    inThread ([] : Ctx) (fun _ => (TaskOutcome.raise "boom" : TaskOutcome Int)) true =
      Except.ok [(false, TaskResult.failure (Failure.mk "boom"))] :=
  ⟨(inThread_onResult_exactly_once [] (fun _ => TaskOutcome.ret (7 : Int))).1 7 rfl,
   (inThread_onResult_exactly_once []
      (fun _ => (TaskOutcome.raise "boom" : TaskOutcome Int))).2.1 "boom" rfl⟩

/-- C2 (code_bug evidence): a started pool holding two busy workers and three
backlogged tasks is resized from max 2 to max 10; the sizing pass then wants
min(max, backlogDepth + busyWorkerCount) = min(10, 3 + 2) = 5 live workers against 2,
but instead of spawning workers the resize call raises AttributeError out of
startAWorker (the workers property has no setter, and _worker does not exist), leaving
the live worker count at 2. -/
theorem startSomeWorkers_raises_at_failing_input :
    ThreadPool.adjustPoolsize (ThreadPool.mk 0 2 none true false (Statistics.mk 0 2 3))
        none (some 10) =
      (ThreadPool.mk 0 10 none true false (Statistics.mk 0 2 3),
       some "AttributeError: property workers of ThreadPool has no setter") ∧
    (ThreadPool.mk 0 10 none true false (Statistics.mk 0 2 3)).workers = 2 ∧
    Min.min ((ThreadPool.mk 0 10 none true false (Statistics.mk 0 2 3)).max)
      (((ThreadPool.mk 0 10 none true false (Statistics.mk 0 2 3)).team.backloggedWorkCount +
        (ThreadPool.mk 0 10 none true false (Statistics.mk 0 2 3)).team.busyWorkerCount :
        Nat) : Int) = 5 :=
  ⟨rfl, rfl, rfl⟩

/-- C3: after stop() every subsequent submission is a silent no-op: the call returns
normally without error, the pool state is exactly the stopped state, and no work item
is built, so the task is never executed and its onResult never fires. -/
theorem submit_after_stop_is_silent_noop (p : ThreadPool) (ctx : Ctx)
    (func : Ctx → TaskOutcome α) (b : Bool) :
    ThreadPool.callInThreadWithCallback (ThreadPool.stop p) ctx func b =
      (ThreadPool.stop p, none) := by
  unfold ThreadPool.callInThreadWithCallback ThreadPool.stop
  rw [if_pos rfl]

/-- C4: adjustPoolsize with newMin < 0 or newMin > newMax fails on the assert, which
raises synchronously to the caller before anything is assigned, so min, max and the
worker count are unchanged: the object state returned is exactly the original pool. -/
theorem adjustPoolsize_invalid_rejected_unchanged (p : ThreadPool) (mn mx : Int)
    (h : mn < 0 ∨ mx < mn) :
    (ThreadPool.adjustPoolsize p (some mn) (some mx)).1 = p ∧
    ((ThreadPool.adjustPoolsize p (some mn) (some mx)).2).isSome = true :=
  adjustPoolsize_assert_fail p (some mn) (some mx) h

/-- Witness for C4 at the invalid resize (3, 1) of a valid pool. -/
theorem adjustPoolsize_invalid_rejected_unchanged_witness :
    ((3 : Int) < 0 ∨ (1 : Int) < 3) ∧
    ((ThreadPool.adjustPoolsize (ThreadPool.mk 0 4 none false false (Statistics.mk 0 0 0))
        (some 3) (some 1)).1 = ThreadPool.mk 0 4 none false false (Statistics.mk 0 0 0) ∧
     ((ThreadPool.adjustPoolsize (ThreadPool.mk 0 4 none false false (Statistics.mk 0 0 0))
        (some 3) (some 1)).2).isSome = true) :=
  ⟨Or.inr (by decide),
   adjustPoolsize_invalid_rejected_unchanged
     (ThreadPool.mk 0 4 none false false (Statistics.mk 0 0 0)) 3 1 (Or.inr (by decide))⟩

end Threadpool

namespace Threadpool

/-- C5 (code_bug evidence): the spec states a worker-count invariant over pool states
NotStarted, Running and Joined, but under Python 3 ThreadPool(5, 20) raises
AttributeError at line 123 (self.working = [] hits the working property, read-only per
lines 159-164) before self._team (line 140) is created, so construction never produces
a pool object in any state and the stated invariant governs no execution. -/
theorem construction_raises_no_pool_states :
    ThreadPool.init 5 20 none =
      Except.error "AttributeError: property working of ThreadPool has no setter" := rfl

/-- Supporting result (not a claim): over hypothetical pool states, the operational
core does maintain the invariant the spec intends: from any state satisfying PoolInv,
every sequence of submissions, task completions, resizes, starts and stops keeps
idleWorkerCount + busyWorkerCount at most the current maxWorkers while started, and
both counts zero after joined. -/
theorem pool_worker_count_invariant (p0 p : ThreadPool) (h0 : PoolInv p0)
    (hr : PoolReachable p0 p) :
    (p.started = true → (p.workers : Int) ≤ p.max) ∧
    (p.joined = true → p.workers = 0) := by
  have h := poolReachable_inv h0 hr
  exact ⟨h.2.2.1, h.2.2.2⟩

/-- Instantiation of the supporting invariant at the hypothetical fresh state (2, 4),
reachable in zero steps. -/
theorem pool_worker_count_invariant_witness :
    PoolInv (ThreadPool.mk 2 4 none false false (Statistics.mk 0 0 0)) ∧
    (((ThreadPool.mk 2 4 none false false (Statistics.mk 0 0 0)).started = true →
        (((ThreadPool.mk 2 4 none false false (Statistics.mk 0 0 0)).workers : Int) ≤
          (ThreadPool.mk 2 4 none false false (Statistics.mk 0 0 0)).max)) ∧
     ((ThreadPool.mk 2 4 none false false (Statistics.mk 0 0 0)).joined = true →
        (ThreadPool.mk 2 4 none false false (Statistics.mk 0 0 0)).workers = 0)) :=
  ⟨⟨⟨by decide, by decide⟩, fun hx => Bool.noConfusion hx, fun hx => Bool.noConfusion hx,
    fun hx => Bool.noConfusion hx⟩,
   pool_worker_count_invariant _ _
     ⟨⟨by decide, by decide⟩, fun hx => Bool.noConfusion hx, fun hx => Bool.noConfusion hx,
      fun hx => Bool.noConfusion hx⟩
     Relation.ReflTransGen.refl⟩

/-- C6: stop is idempotent: stopping an already stopped pool raises nothing (stop is a
total function in the embedding) and produces the very same terminal state, Joined and
not started. -/
theorem stop_idempotent (p : ThreadPool) :
    ThreadPool.stop (ThreadPool.stop p) = ThreadPool.stop p ∧
    (ThreadPool.stop p).joined = true ∧ (ThreadPool.stop p).started = false :=
  ⟨rfl, rfl, rfl⟩

/-- C7 (code_bug evidence): the spec says that after start() the live worker count
equals min for every valid configuration, but under Python 3 ThreadPool(2, 4) raises
AttributeError in __init__ at line 123 (read-only working property), so no freshly
constructed pool ever exists and start() never runs an initial sizing pass. -/
theorem construction_raises_before_start :
    ThreadPool.init 2 4 none =
      Except.error "AttributeError: property working of ThreadPool has no setter" := rfl

/-- Supporting result (not a claim): the sizing pass itself, run on a hypothetical
fresh pool state with valid bounds 0 ≤ min ≤ max, completes without raising and reaches
exactly min live workers; in the program this state is unreachable, because
construction raises before it exists. -/
theorem start_sizing_on_fresh_state (mn mx : Int) (nm : Option String)
    (h1 : ¬mn < 0) (h2 : ¬mx < mn) :
    (ThreadPool.start (ThreadPool.mk mn mx nm false false (Statistics.mk 0 0 0))).2 =
      none ∧
    ((ThreadPool.start
        (ThreadPool.mk mn mx nm false false (Statistics.mk 0 0 0))).1.workers : Int) =
      mn := by
  simp only [ThreadPool.start, ThreadPool.adjustPoolsize, ThreadPool._startSomeWorkers,
    ThreadPool.startAWorker, Option.getD, ThreadPool.workers, live_mk]
  rw [if_neg h1, if_neg h2, if_neg (by decide : ¬(true = false))]
  split
  · exfalso
    omega
  · split
    · rename_i hshrink hgrow
      simp only [tp_team_mk, tp_min_mk, tp_max_mk, live_mk] at hgrow
      split
      · rename_i hc6
        simp only [tp_team_mk, tp_min_mk, tp_max_mk, teamGrow_busy, teamGrow_backlog,
          busy_mk, backlog_mk, live_mk] at hc6
        rw [min_def] at hc6
        split_ifs at hc6 <;> (exfalso; omega)
      · rename_i hc6
        refine ⟨rfl, ?_⟩
        have hpre :
            ((((Statistics.mk 0 0 0).live + (mn - ((0 + 0 : Nat) : Int)).toNat : Nat)) :
              Int) ≤ mx := by
          simp only [live_mk]
          omega
        show ((teamGrow (Statistics.mk 0 0 0) mx
            (mn - ((0 + 0 : Nat) : Int)).toNat).live : Int) = mn
        rw [teamGrow_live_exact mx _ _ hpre]
        simp only [live_mk]
        omega
    · rename_i hshrink hgrow
      simp only [tp_team_mk, tp_min_mk, tp_max_mk, live_mk] at hgrow
      split
      · rename_i hc6
        simp only [tp_team_mk, tp_min_mk, tp_max_mk, busy_mk, backlog_mk, live_mk] at hc6
        rw [min_def] at hc6
        split_ifs at hc6 <;> (exfalso; omega)
      · rename_i hc6
        refine ⟨rfl, ?_⟩
        show (((0 + 0 : Nat) : Int)) = mn
        omega

end Threadpool

namespace Threadpool

/-- C8: an accepted submission (pool not joined) builds the work item carrying exactly
the ambient context snapshot of the calling thread; the worker executes the item by
running the inThread closure under that snapshot; and a task that observes its ambient
context observes exactly the submission-time snapshot. -/
theorem submission_captures_and_installs_context (p : ThreadPool) (ctx : Ctx)
    (func : Ctx → TaskOutcome α) (b : Bool) (h : p.joined = false) :
    (ThreadPool.callInThreadWithCallback p ctx func b).2 = some (WorkItem.mk ctx func b) ∧
    executeWorkItem (WorkItem.mk ctx func b) = inThread ctx func b ∧
    (∀ c : Ctx, executeWorkItem (WorkItem.mk c (fun x => TaskOutcome.ret x) true) =
      Except.ok [(true, TaskResult.value c)]) := by
  refine ⟨?_, rfl, fun c => rfl⟩
  unfold ThreadPool.callInThreadWithCallback
  rw [if_neg (by simp [h])]

/-- Witness for C8: a not-joined pool and a concrete snapshot. -/
theorem submission_captures_and_installs_context_witness :
    (ThreadPool.mk 5 20 none false false (Statistics.mk 0 0 0)).joined = false ∧
    (ThreadPool.callInThreadWithCallback
        (ThreadPool.mk 5 20 none false false (Statistics.mk 0 0 0))
        [("key", "value")] (fun c : Ctx => TaskOutcome.ret c) true).2 =
      some (WorkItem.mk [("key", "value")] (fun c : Ctx => TaskOutcome.ret c) true) :=
  ⟨rfl,
   (submission_captures_and_installs_context
      (ThreadPool.mk 5 20 none false false (Statistics.mk 0 0 0))
      [("key", "value")] (fun c : Ctx => TaskOutcome.ret c) true rfl).1⟩

/-- C9 counterexample: the claimed freshly constructed pool never exists — under
Python 3, ThreadPool(0, 10) raises AttributeError at line 123 (read-only working
property) before self._team (line 140) is created, so no fresh NotStarted instance is
ever available to accept a submission. -/
theorem fresh_pool_construction_raises :
    ThreadPool.init 0 10 none =
      Except.error "AttributeError: property working of ThreadPool has no setter" := rfl

/-- C9 amended: for every pool object state, the drop branch of
callInThreadWithCallback fires if and only if joined is True — started is irrelevant —
and a state with joined False accepts the task and hands it to the team; however no
freshly constructed instance exists to exercise the pre-start acceptance, since
__init__ raises AttributeError at line 123. -/
theorem drop_iff_joined (q : ThreadPool) (ctx : Ctx)
    (func : Ctx → TaskOutcome Int) (b : Bool) :
    ((ThreadPool.callInThreadWithCallback q ctx func b).2 = none ↔ q.joined = true) ∧
    (q.joined = false →
      (ThreadPool.callInThreadWithCallback q ctx func b).2 =
        some (WorkItem.mk ctx func b)) := by
  unfold ThreadPool.callInThreadWithCallback
  by_cases hq : q.joined = true
  · rw [if_pos hq]
    exact ⟨by simp [hq], fun hf => absurd hq (by simp [hf])⟩
  · rw [if_neg hq]
    refine ⟨by simp [hq], fun _ => rfl⟩

/-- Witness for the amended C9 at a not-joined pool state. -/
theorem drop_iff_joined_witness :
    (ThreadPool.mk 5 20 none false false (Statistics.mk 0 0 0)).joined = false ∧
    (ThreadPool.callInThreadWithCallback
        (ThreadPool.mk 5 20 none false false (Statistics.mk 0 0 0))
        [] (fun _ => TaskOutcome.ret (0 : Int)) true).2 =
      some (WorkItem.mk [] (fun _ => TaskOutcome.ret (0 : Int)) true) :=
  ⟨rfl,
   (drop_iff_joined (ThreadPool.mk 5 20 none false false (Statistics.mk 0 0 0)) []
      (fun _ => TaskOutcome.ret 0) true).2 rfl⟩

/-- C10 counterexample: at the concrete dirty pool state with min 1 and max 3,
__getstate__ does hold exactly the keys min and max, but applying __setstate__ to that
state does not reinitialize a fresh unstarted pool: the re-run of __init__ raises
AttributeError at line 123 before the fresh team is created. -/
theorem pickle_roundtrip_fails_counterexample :
    ThreadPool.__getstate__
        (ThreadPool.mk 1 3 (some "poolname") true true (Statistics.mk 4 5 6)) =
      [("min", 1), ("max", 3)] ∧
    ThreadPool.__setstate__ [("min", 1), ("max", 3)] =
      Except.error "AttributeError: property working of ThreadPool has no setter" :=
  ⟨rfl, rfl⟩

/-- C10 amended: __getstate__ returns a dict containing exactly the keys min and max
(and nothing else); but __setstate__ applied to such a state re-runs __init__, which
under Python 3 raises AttributeError at line 123 (read-only working property) before
the fresh team at line 140 is created, so the object is never reinitialized as a
fresh, unstarted pool. -/
theorem getstate_exact_setstate_raises (p : ThreadPool) :
    ThreadPool.__getstate__ p = [("min", p.min), ("max", p.max)] ∧
    (0 ≤ p.min → p.min ≤ p.max →
      ThreadPool.__setstate__ (ThreadPool.__getstate__ p) =
        Except.error "AttributeError: property working of ThreadPool has no setter") := by
  refine ⟨rfl, fun h0 h1 => ?_⟩
  have hmn : (List.lookup "min" [("min", p.min), ("max", p.max)]).getD 5 = p.min := rfl
  have hmx : (List.lookup "max" [("min", p.min), ("max", p.max)]).getD 20 = p.max := rfl
  simp only [ThreadPool.__setstate__, ThreadPool.__getstate__, ThreadPool.init]
  rw [if_neg (by rw [hmn]; omega), if_neg (by rw [hmn, hmx]; omega)]

/-- Witness for the amended C10 at a pool state with valid bounds and dirty transient
state. -/
theorem getstate_exact_setstate_raises_witness :
    ThreadPool.__getstate__
        (ThreadPool.mk 2 6 (some "x") true true (Statistics.mk 7 8 9)) =
      [("min", 2), ("max", 6)] ∧
    ThreadPool.__setstate__ (ThreadPool.__getstate__
        (ThreadPool.mk 2 6 (some "x") true true (Statistics.mk 7 8 9))) =
      Except.error "AttributeError: property working of ThreadPool has no setter" :=
  ⟨(getstate_exact_setstate_raises
      (ThreadPool.mk 2 6 (some "x") true true (Statistics.mk 7 8 9))).1,
   (getstate_exact_setstate_raises
      (ThreadPool.mk 2 6 (some "x") true true (Statistics.mk 7 8 9))).2
     (by decide) (by decide)⟩

end Threadpool
